import Mathlib

/-!
Shallow embedding of the portfolio backend (`main.py` plus `schemas.py`):
the document store, the three entity schemas, the token service and the
HTTP handlers, followed by theorems checking the specification claims.

Modelling conventions: datetimes are abstract ticks (`Nat`); ObjectIds are
their 24-hex string rendering; a mutating handler returns the new store;
an exception that escapes a handler is `Outcome.uncaught` (the framework
turns it into an internal server error); the admin-token dependency of the
mutating routes is elided — handlers are modelled after authentication.
-/

/-- A BSON-like field value as stored in a document. -/
inductive Value where
  | str (s : String)
  | null
  | list (l : List String)
  | bool (b : Bool)
  | int (n : Int)
  | time (t : Nat)
  | oid (s : String)
  deriving DecidableEq, Repr

/-- A stored document: an insertion-ordered dictionary of fields. -/
abbrev Doc := List (String × Value)

/-- Python dict assignment `d[k] = v` (also one key of a Mongo `$set`):
replace the value in place when the key exists, else append the pair. -/
def setKey {β : Type} (doc : List (String × β)) (k : String) (v : β) :
    List (String × β) :=
  if doc.any (fun kv => kv.1 == k) then
    doc.map (fun kv => if kv.1 == k then (k, v) else kv)
  else doc ++ [(k, v)]

/-- Mongo `$set` with a whole patch: apply every key of the patch in order. -/
def setFields (doc : Doc) (patch : Doc) : Doc :=
  patch.foldl (fun d kv => setKey d kv.1 kv.2) doc

/-- Rendering of a datetime tick to its ISO-8601 transport string
(modelled as an injective tag, the exact text being irrelevant here). -/
def isoformat (t : Nat) : String := "iso-" ++ toString t

/-- The `str()` rendering of a field value, used for `str(_id)`. -/
def valueStr : Value → String
  | .oid s => s
  | .str s => s
  | _ => ""

/-- The `serialize_doc` helper of `main.py`: an empty dict is returned as
is; otherwise `_id` is popped, `id` is appended as its string rendering,
and every datetime value is rendered as an ISO string. -/
def serialize_doc (doc : Doc) : Doc :=
  if doc.isEmpty then doc
  else
    let i := doc.lookup "_id"
    let d := doc.filter (fun kv => !(kv.1 == "_id"))
    let d := match i with
      | some v => d ++ [("id", Value.str (valueStr v))]
      | none => d
    d.map (fun kv =>
      match kv.2 with
      | .time t => (kv.1, Value.str (isoformat t))
      | _ => kv)

/-- Validity of a string as a BSON ObjectId (bson `ObjectId.is_valid` on a
string input): exactly 24 hexadecimal characters. -/
def ObjectId.is_valid (s : String) : Bool :=
  s.length == 24 &&
    s.data.all (fun c => c.isDigit || (c ≥ 'a' && c ≤ 'f') || (c ≥ 'A' && c ≤ 'F'))

/-- The `Project` schema of `schemas.py`. URL fields are kept as their
string rendering (their well-formedness check happens at parse time and
is not modelled field-internally). -/
structure Project where
  title : String
  slug : String
  summary : String
  description : Option String := none
  tech : List String := []
  role : Option String := none
  timeline : Option String := none
  logo_url : Option String := none
  demo_url : Option String := none
  repo_url : Option String := none
  tags : List String := []
  featured : Bool := false
  created_at : Option Nat := none
  updated_at : Option Nat := none
  deriving DecidableEq, Repr

/-- The `BlogPost` schema of `schemas.py`. -/
structure BlogPost where
  title : String
  slug : String
  excerpt : String
  content : Option String := none
  tags : List String := []
  read_time : Nat := 3
  cover_url : Option String := none
  created_at : Option Nat := none
  updated_at : Option Nat := none
  deriving DecidableEq, Repr

/-- The `TechItem` schema of `schemas.py`. -/
structure TechItem where
  name : String
  category : Option String := none
  level : Option String := none
  icon : Option String := none
  created_at : Option Nat := none
  updated_at : Option Nat := none
  deriving DecidableEq, Repr

/-- An optional string field as dumped into a document. -/
def optStr : Option String → Value
  | none => .null
  | some s => .str s

/-- An optional datetime field as dumped into a document. -/
def optTime : Option Nat → Value
  | none => .null
  | some t => .time t

/-- `Project.model_dump()`: every schema field, in declaration order —
including the optional `created_at` and `updated_at` fields. -/
def Project.model_dump (p : Project) : Doc :=
  [("title", .str p.title), ("slug", .str p.slug), ("summary", .str p.summary),
   ("description", optStr p.description), ("tech", .list p.tech),
   ("role", optStr p.role), ("timeline", optStr p.timeline),
   ("logo_url", optStr p.logo_url), ("demo_url", optStr p.demo_url),
   ("repo_url", optStr p.repo_url), ("tags", .list p.tags),
   ("featured", .bool p.featured),
   ("created_at", optTime p.created_at), ("updated_at", optTime p.updated_at)]

/-- `BlogPost.model_dump()`. -/
def BlogPost.model_dump (b : BlogPost) : Doc :=
  [("title", .str b.title), ("slug", .str b.slug), ("excerpt", .str b.excerpt),
   ("content", optStr b.content), ("tags", .list b.tags),
   ("read_time", .int b.read_time), ("cover_url", optStr b.cover_url),
   ("created_at", optTime b.created_at), ("updated_at", optTime b.updated_at)]

/-- `TechItem.model_dump()`. -/
def TechItem.model_dump (t : TechItem) : Doc :=
  [("name", .str t.name), ("category", optStr t.category),
   ("level", optStr t.level), ("icon", optStr t.icon),
   ("created_at", optTime t.created_at), ("updated_at", optTime t.updated_at)]

/-- The document database: one list of documents per collection. -/
structure Store where
  project : List Doc := []
  blogpost : List Doc := []
  techitem : List Doc := []
  deriving DecidableEq, Repr

/-- Collection lookup `db[name]`. -/
def Store.coll (s : Store) : String → List Doc
  | "project" => s.project
  | "blogpost" => s.blogpost
  | "techitem" => s.techitem
  | _ => []

/-- Write a collection back into the store. -/
def Store.setColl (s : Store) (name : String) (docs : List Doc) : Store :=
  match name with
  | "project" => { s with project := docs }
  | "blogpost" => { s with blogpost := docs }
  | "techitem" => { s with techitem := docs }
  | _ => s

/-- Result of running one request handler: a value, an `HTTPException`
carrying a status code and detail, or an exception that escapes the
handler (which the framework surfaces as an internal server error). -/
inductive Outcome (α : Type) where
  | ok (v : α)
  | httpError (code : Nat) (detail : String)
  | uncaught (msg : String)
  deriving DecidableEq, Repr

/-- The HTTP status code of an erroring outcome, if any. -/
def Outcome.status {α : Type} : Outcome α → Option Nat
  | .httpError c _ => some c
  | _ => none

/-- Whether the handler returned a value. -/
def Outcome.isOk {α : Type} : Outcome α → Bool
  | .ok _ => true
  | _ => false

/-- Detail message of the `ensure_db` failure (`main.py` line 111). -/
def dbUnavailableMsg : String :=
  "Database not available. Configure DATABASE_URL and DATABASE_NAME."

/-- `ensure_db`: raises HTTP 500 when no store connection was configured. -/
def ensure_db : Option Store → Except (Nat × String) Unit
  | none => .error (500, dbUnavailableMsg)
  | some _ => .ok ()

/-- `collection(name)`: runs `ensure_db` on every access, then resolves the
handle. -/
def collection (db : Option Store) (name : String) :
    Except (Nat × String) (List Doc) :=
  match ensure_db db, db with
  | .error e, _ => .error e
  | .ok _, some s => .ok (s.coll name)
  | .ok _, none => .error (500, dbUnavailableMsg)

/-- Sort rank of a document for `sort("created_at", -1)`: a missing or
null key ranks below every real timestamp. -/
def createdRank (d : Doc) : Nat :=
  match d.lookup "created_at" with
  | some (.time t) => t + 1
  | _ => 0

/-- Boolean comparator realising `sort("created_at", -1)`. -/
def createdDesc (a b : Doc) : Bool := createdRank b ≤ createdRank a

/-- Sort key of a document for `sort("name", 1)`. -/
def nameKey (d : Doc) : String :=
  match d.lookup "name" with
  | some (.str s) => s
  | _ => ""

/-- Boolean comparator realising `sort("name", 1)`. -/
def nameAsc (a b : Doc) : Bool := nameKey a ≤ nameKey b

/-- Mongo `update_one({_id: i}, {$set: patch})`: patch the first document
whose `_id` matches; `none` when no document matched. -/
def update_one (docs : List Doc) (i : String) (patch : Doc) :
    Option (List Doc) :=
  match docs.findIdx? (fun d => d.lookup "_id" == some (Value.oid i)) with
  | none => none
  | some k => some (docs.set k (setFields ((docs.get? k).getD []) patch))

/-- Mongo `delete_one({_id: i})`: remove the first document whose `_id`
matches; `none` when no document matched. -/
def delete_one (docs : List Doc) (i : String) : Option (List Doc) :=
  match docs.findIdx? (fun d => d.lookup "_id" == some (Value.oid i)) with
  | none => none
  | some k => some (docs.eraseIdx k)

/-- Python truthiness of the optional `limit` query parameter. -/
def limitTruthy : Option Int → Bool
  | none => false
  | some n => n != 0

/-- Cursor truncation `cur.limit(n)` for a truthy `n` (a negative argument
behaves as its absolute value). -/
def applyLimit (docs : List Doc) : Option Int → List Doc
  | some n => if n ≠ 0 then docs.take n.natAbs else docs
  | none => docs

/-- `GET /projects?limit=` — all projects sorted newest first, truncated
only when the limit parameter is truthy. -/
def list_projects (db : Option Store) (limit : Option Int) :
    Outcome (List Doc) :=
  match collection db "project" with
  | .error (c, m) => .httpError c m
  | .ok docs => .ok ((applyLimit (docs.mergeSort createdDesc) limit).map serialize_doc)

/-- `GET /projects/slug/{slug}` — first matching document or 404. -/
def get_project_by_slug (db : Option Store) (slug : String) : Outcome Doc :=
  match collection db "project" with
  | .error (c, m) => .httpError c m
  | .ok docs =>
    match docs.find? (fun d => d.lookup "slug" == some (Value.str slug)) with
    | none => .httpError 404 "Project not found"
    | some d =>
      if d.isEmpty then .httpError 404 "Project not found"
      else .ok (serialize_doc d)

/-- The document inserted by `POST /projects`: the dumped body with both
timestamps overwritten by the single clock reading `now`. -/
def insertedProject (data : Project) (now : Nat) (newId : String) : Doc :=
  ("_id", Value.oid newId) ::
    setKey (setKey data.model_dump "created_at" (.time now)) "updated_at" (.time now)

/-- `POST /projects` — stamp both timestamps to now, insert, return the
string rendering of the assigned identifier. -/
def create_project (db : Option Store) (data : Project) (now : Nat)
    (newId : String) : Outcome (Store × String) :=
  match db with
  | none => .httpError 500 dbUnavailableMsg
  | some s =>
    .ok ({ s with project := s.project ++ [insertedProject data now newId] }, newId)

/-- `PUT /projects/{id}` — `ObjectId(id)` raises an uncaught `InvalidId`
on a malformed identifier; otherwise `$set` the dumped body (its
`created_at` field included) with `updated_at` overwritten by now. -/
def update_project (db : Option Store) (i : String) (data : Project)
    (now : Nat) : Outcome Store :=
  match db with
  | none => .httpError 500 dbUnavailableMsg
  | some s =>
    if ObjectId.is_valid i then
      match update_one s.project i (setKey data.model_dump "updated_at" (.time now)) with
      | none => .httpError 404 "Not found"
      | some docs => .ok (s.setColl "project" docs)
    else .uncaught "InvalidId"

/-- `DELETE /projects/{id}` — same `ObjectId(id)` parse, then delete. -/
def delete_project (db : Option Store) (i : String) : Outcome Store :=
  match db with
  | none => .httpError 500 dbUnavailableMsg
  | some s =>
    if ObjectId.is_valid i then
      match delete_one s.project i with
      | none => .httpError 404 "Not found"
      | some docs => .ok (s.setColl "project" docs)
    else .uncaught "InvalidId"

/-- `GET /blog?limit=`. -/
def list_blog (db : Option Store) (limit : Option Int) : Outcome (List Doc) :=
  match collection db "blogpost" with
  | .error (c, m) => .httpError c m
  | .ok docs => .ok ((applyLimit (docs.mergeSort createdDesc) limit).map serialize_doc)

/-- `GET /blog/slug/{slug}`. -/
def get_post_by_slug (db : Option Store) (slug : String) : Outcome Doc :=
  match collection db "blogpost" with
  | .error (c, m) => .httpError c m
  | .ok docs =>
    match docs.find? (fun d => d.lookup "slug" == some (Value.str slug)) with
    | none => .httpError 404 "Post not found"
    | some d =>
      if d.isEmpty then .httpError 404 "Post not found"
      else .ok (serialize_doc d)

/-- The document inserted by `POST /blog`. -/
def insertedPost (data : BlogPost) (now : Nat) (newId : String) : Doc :=
  ("_id", Value.oid newId) ::
    setKey (setKey data.model_dump "created_at" (.time now)) "updated_at" (.time now)

/-- `POST /blog`. -/
def create_post (db : Option Store) (data : BlogPost) (now : Nat)
    (newId : String) : Outcome (Store × String) :=
  match db with
  | none => .httpError 500 dbUnavailableMsg
  | some s =>
    .ok ({ s with blogpost := s.blogpost ++ [insertedPost data now newId] }, newId)

/-- `PUT /blog/{id}`. -/
def update_post (db : Option Store) (i : String) (data : BlogPost)
    (now : Nat) : Outcome Store :=
  match db with
  | none => .httpError 500 dbUnavailableMsg
  | some s =>
    if ObjectId.is_valid i then
      match update_one s.blogpost i (setKey data.model_dump "updated_at" (.time now)) with
      | none => .httpError 404 "Not found"
      | some docs => .ok (s.setColl "blogpost" docs)
    else .uncaught "InvalidId"

/-- `DELETE /blog/{id}`. -/
def delete_post (db : Option Store) (i : String) : Outcome Store :=
  match db with
  | none => .httpError 500 dbUnavailableMsg
  | some s =>
    if ObjectId.is_valid i then
      match delete_one s.blogpost i with
      | none => .httpError 404 "Not found"
      | some docs => .ok (s.setColl "blogpost" docs)
    else .uncaught "InvalidId"

/-- `GET /tech` — every tech item, sorted by name ascending. -/
def list_tech (db : Option Store) : Outcome (List Doc) :=
  match collection db "techitem" with
  | .error (c, m) => .httpError c m
  | .ok docs => .ok ((docs.mergeSort nameAsc).map serialize_doc)

/-- The document inserted by `POST /tech`. -/
def insertedTech (data : TechItem) (now : Nat) (newId : String) : Doc :=
  ("_id", Value.oid newId) ::
    setKey (setKey data.model_dump "created_at" (.time now)) "updated_at" (.time now)

/-- `POST /tech`. -/
def create_tech (db : Option Store) (data : TechItem) (now : Nat)
    (newId : String) : Outcome (Store × String) :=
  match db with
  | none => .httpError 500 dbUnavailableMsg
  | some s =>
    .ok ({ s with techitem := s.techitem ++ [insertedTech data now newId] }, newId)

/-- `PUT /tech/{id}`. -/
def update_tech (db : Option Store) (i : String) (data : TechItem)
    (now : Nat) : Outcome Store :=
  match db with
  | none => .httpError 500 dbUnavailableMsg
  | some s =>
    if ObjectId.is_valid i then
      match update_one s.techitem i (setKey data.model_dump "updated_at" (.time now)) with
      | none => .httpError 404 "Not found"
      | some docs => .ok (s.setColl "techitem" docs)
    else .uncaught "InvalidId"

/-- `DELETE /tech/{id}`. -/
def delete_tech (db : Option Store) (i : String) : Outcome Store :=
  match db with
  | none => .httpError 500 dbUnavailableMsg
  | some s =>
    if ObjectId.is_valid i then
      match delete_one s.techitem i with
      | none => .httpError 404 "Not found"
      | some docs => .ok (s.setColl "techitem" docs)
    else .uncaught "InvalidId"

/-- The projects block of `GET /home` (line 244 of `main.py`). -/
def home_projects (s : Store) : List Doc :=
  ((s.coll "project").mergeSort createdDesc).take 6

/-- The posts block of `GET /home` (line 245). -/
def home_posts (s : Store) : List Doc :=
  ((s.coll "blogpost").mergeSort createdDesc).take 3

/-- The tech block of `GET /home` (line 246). -/
def home_tech (s : Store) : List Doc :=
  (s.coll "techitem").mergeSort nameAsc

/-- Response shape of `GET /home`. -/
structure HomeResponse where
  projects : List Doc
  posts : List Doc
  tech : List Doc
  deriving DecidableEq, Repr

/-- `GET /home`. -/
def home_data (db : Option Store) : Outcome HomeResponse :=
  match db with
  | none => .httpError 500 dbUnavailableMsg
  | some s =>
    .ok ⟨(home_projects s).map serialize_doc,
         (home_posts s).map serialize_doc,
         (home_tech s).map serialize_doc⟩

/-- A JWT claim value: a string (the role) or a timestamp (the expiry). -/
inductive Claim where
  | str (s : String)
  | time (t : Nat)
  deriving DecidableEq, Repr

/-- A JWT payload: an insertion-ordered dictionary of claims. -/
abbrev Claims := List (String × Claim)

/-- Default signing secret (`JWT_SECRET` environment default). -/
def JWT_SECRET : String := "supersecret"

/-- Default admin password (`ADMIN_PASSWORD` environment default). -/
def ADMIN_PASSWORD : String := "admin123"

/-- Token lifetime in minutes: `60 * 8`, eight hours. -/
def TOKEN_EXPIRE_MINUTES : Nat := 60 * 8

/-- A signed JWT: its payload plus the secret it was signed with. -/
structure SignedToken where
  claims : Claims
  secret : String
  deriving DecidableEq, Repr

/-- `create_token`: copy the payload, stamp `exp` to issuance time plus
the lifetime, and sign with the server secret. Time is in minutes. -/
def create_token (payload : Claims) (now : Nat) : SignedToken :=
  ⟨setKey payload "exp" (.time (now + TOKEN_EXPIRE_MINUTES)), JWT_SECRET⟩

/-- Response body of `POST /auth/login`. -/
structure TokenResponse where
  access_token : SignedToken
  token_type : String := "bearer"
  deriving DecidableEq, Repr

/-- `POST /auth/login`: plain equality against the configured admin
password; 401 on mismatch, a fresh admin token plus `"bearer"` on match. -/
def login (adminPassword : String) (password : String) (now : Nat) :
    Outcome TokenResponse :=
  if password ≠ adminPassword then .httpError 401 "Invalid credentials"
  else .ok ⟨create_token [("role", .str "admin")] now, "bearer"⟩

/-- What the caller presents on an admin route: either bytes that do not
parse as a JWT at all, or a signed token. -/
inductive Presented where
  | malformed
  | token (t : SignedToken)
  deriving DecidableEq, Repr

/-- Outcome of `jwt.decode`: the decoded claims, the dedicated
expired-signature error, or any other decode failure. -/
inductive DecodeResult where
  | ok (claims : Claims)
  | expiredSignature
  | decodeError
  deriving DecidableEq, Repr

/-- `jwt.decode(token, secret)`: a malformed token or a wrong signature is
a generic decode failure; an `exp` claim at or before now is the
expired-signature failure; otherwise the payload is returned. -/
def jwtDecode (p : Presented) (secret : String) (now : Nat) : DecodeResult :=
  match p with
  | .malformed => .decodeError
  | .token t =>
    if t.secret ≠ secret then .decodeError
    else
      match t.claims.lookup "exp" with
      | some (.time e) => if e ≤ now then .expiredSignature else .ok t.claims
      | _ => .ok t.claims

/-- An exception raised inside the `try` block of `require_admin`. -/
inductive AuthExc where
  | expiredSignature
  | httpExc (code : Nat) (detail : String)
  | decodeError
  deriving DecidableEq, Repr

/-- The `try` body of `require_admin`: propagate the decode failure, or
raise `HTTPException(403, "Not authorized")` when the role claim is not
`"admin"`. -/
def require_admin_try (d : DecodeResult) : Except AuthExc Claims :=
  match d with
  | .expiredSignature => .error .expiredSignature
  | .decodeError => .error .decodeError
  | .ok claims =>
    if claims.lookup "role" ≠ some (.str "admin") then
      .error (.httpExc 403 "Not authorized")
    else .ok claims

/-- `require_admin`: the `except jwt.ExpiredSignatureError` arm maps to
401 "Token expired"; the bare `except Exception` arm catches everything
else raised inside the `try` block — including the `HTTPException(403)`
of the role check, which is a subclass of `Exception` — and replaces it
with 401 "Invalid token". -/
def require_admin (d : DecodeResult) : Outcome Claims :=
  match require_admin_try d with
  | .ok c => .ok c
  | .error .expiredSignature => .httpError 401 "Token expired"
  | .error _ => .httpError 401 "Invalid token"

/-- The store connection as seen by `GET /test`: its collection names,
plus an optional connectivity fault that makes `list_collection_names`
raise with the given message. -/
structure DbConn where
  collections : List String := []
  connErr : Option String := none
  deriving DecidableEq, Repr

/-- The status dictionary built by `GET /test`. -/
structure StatusObj where
  backend : String
  database : String
  connection_status : String
  collections : Option (List String) := none
  deriving DecidableEq, Repr

/-- Python string slicing `s[:n]`. -/
def strTrunc (s : String) (n : Nat) : String := ⟨s.data.take n⟩

/-- `GET /test`: the store access sits inside a try/except, so a
connectivity error becomes a truncated message in the `database` field
(the `connection_status` assignment made before the raise survives)
rather than an exception escaping the handler. -/
def test_database (db : Option DbConn) : Outcome StatusObj :=
  let s0 : StatusObj :=
    { backend := "✅ Running", database := "❌ Not Available",
      connection_status := "Not Connected" }
  match db with
  | none => .ok { s0 with database := "⚠️ Not configured" }
  | some c =>
    let s1 := { s0 with database := "✅ Available", connection_status := "Connected" }
    match c.connErr with
    | some e => .ok { s1 with database := "Error: " ++ strTrunc e 80 }
    | none => .ok { s1 with collections := some c.collections }

/-! Sample concrete values used by the concrete-input theorems. -/

/-- A minimal valid project body. -/
def sampleProject : Project := { title := "X", slug := "x", summary := "s" }

/-- A minimal valid blog-post body. -/
def sampleBlogPost : BlogPost := { title := "T", slug := "t", excerpt := "e" }

/-- A minimal valid tech-item body. -/
def sampleTechItem : TechItem := { name := "N" }

/-- A well-formed 24-hex ObjectId string. -/
def oid24 : String := "aaaaaaaaaaaaaaaaaaaaaaaa"

/-- A project document as stored by a create at tick 5. -/
def storedProject : Doc := insertedProject sampleProject 5 oid24

/-- A store seeded with that one project. -/
def seededStore : Store := { project := [storedProject] }

/-- An update body that, per the schema defaults, carries `created_at = None`. -/
def updateBody : Project := { title := "X2", slug := "x", summary := "s2" }

/-- The stored project document after `PUT /projects/{oid24}` at tick 10. -/
def afterUpdateDoc : Doc :=
  match update_project (some seededStore) oid24 updateBody 10 with
  | .ok s => s.project.headD []
  | _ => []

/-- C1: the update handler `$set`s the dumped body, whose `created_at`
field (null when the client omits it) overwrites the stored creation
timestamp: on a document created at tick 5, an update at tick 10 with a
body omitting `created_at` leaves `created_at = null` and
`updated_at = tick 10`. The claim says `created_at` stays untouched. -/
theorem update_overwrites_created_at :
    storedProject.lookup "created_at" = some (Value.time 5) ∧
    (update_project (some seededStore) oid24 updateBody 10).isOk = true ∧
    afterUpdateDoc.lookup "created_at" = some Value.null ∧
    afterUpdateDoc.lookup "updated_at" = some (Value.time 10) := by decide

/-- C2 counterexample: on the identifier string "nope" (not a valid
ObjectId) the update and delete handlers do not fail with
BadRequest/ValidationError (nor NotFound): the `ObjectId(id)` parse
raises an uncaught `InvalidId`, so no HTTP status is produced by the
handler at all. -/
theorem invalid_objectid_uncaught_counterexample :
    update_project (some {}) "nope" sampleProject 0 = .uncaught "InvalidId" ∧
    (update_project (some {}) "nope" sampleProject 0).status = none ∧
    delete_project (some {}) "nope" = .uncaught "InvalidId" ∧
    (delete_project (some {}) "nope").status = none := by decide

/-- C2 amended: for every update or delete request whose identifier path
parameter is not a valid ObjectId string, the handler raises an uncaught
`InvalidId` error — surfacing as an internal server error, not NotFound
and not BadRequest. -/
theorem invalid_objectid_update_delete_uncaught (s : Store) (i : String)
    (p : Project) (b : BlogPost) (t : TechItem) (now : Nat)
    (h : ObjectId.is_valid i = false) :
    update_project (some s) i p now = .uncaught "InvalidId" ∧
    delete_project (some s) i = .uncaught "InvalidId" ∧
    update_post (some s) i b now = .uncaught "InvalidId" ∧
    delete_post (some s) i = .uncaught "InvalidId" ∧
    update_tech (some s) i t now = .uncaught "InvalidId" ∧
    delete_tech (some s) i = .uncaught "InvalidId" := by
  simp [update_project, delete_project, update_post, delete_post,
    update_tech, delete_tech, h]

/-- C2 witness: the amended statement at the concrete invalid id "nope". -/
theorem invalid_objectid_update_delete_uncaught_witness :
    update_project (some {}) "nope" sampleProject 0 = .uncaught "InvalidId" ∧
    delete_project (some {}) "nope" = .uncaught "InvalidId" ∧
    update_post (some {}) "nope" sampleBlogPost 0 = .uncaught "InvalidId" ∧
    delete_post (some {}) "nope" = .uncaught "InvalidId" ∧
    update_tech (some {}) "nope" sampleTechItem 0 = .uncaught "InvalidId" ∧
    delete_tech (some {}) "nope" = .uncaught "InvalidId" :=
  invalid_objectid_update_delete_uncaught {} "nope" sampleProject
    sampleBlogPost sampleTechItem 0 (by decide)

/-- C3 counterexample: with no store configured, a data route fails with
HTTP 500 (the `ensure_db` status), not 503 ServiceUnavailable as the
claim states. -/
theorem ensure_db_returns_500_not_503 :
    list_projects none none = .httpError 500 dbUnavailableMsg ∧
    (list_projects none none).status = some 500 ∧
    (list_projects none none).status ≠ some 503 := by decide

/-- C3 amended: if no store connection was configured, every data-route
handler fails with HTTP 500 carrying the "Database not available"
detail — a condition distinct from NotFound, though not the 503
ServiceUnavailable status — and the `ensure_db` check runs on every
`collection` access, not only at startup. -/
theorem db_unconfigured_every_access_500 (limit : Option Int)
    (i slug newId name : String) (p : Project) (b : BlogPost) (t : TechItem)
    (now : Nat) :
    list_projects none limit = .httpError 500 dbUnavailableMsg ∧
    get_project_by_slug none slug = .httpError 500 dbUnavailableMsg ∧
    create_project none p now newId = .httpError 500 dbUnavailableMsg ∧
    update_project none i p now = .httpError 500 dbUnavailableMsg ∧
    delete_project none i = .httpError 500 dbUnavailableMsg ∧
    list_blog none limit = .httpError 500 dbUnavailableMsg ∧
    get_post_by_slug none slug = .httpError 500 dbUnavailableMsg ∧
    create_post none b now newId = .httpError 500 dbUnavailableMsg ∧
    update_post none i b now = .httpError 500 dbUnavailableMsg ∧
    delete_post none i = .httpError 500 dbUnavailableMsg ∧
    list_tech none = .httpError 500 dbUnavailableMsg ∧
    create_tech none t now newId = .httpError 500 dbUnavailableMsg ∧
    update_tech none i t now = .httpError 500 dbUnavailableMsg ∧
    delete_tech none i = .httpError 500 dbUnavailableMsg ∧
    home_data none = .httpError 500 dbUnavailableMsg ∧
    collection none name = .error (500, dbUnavailableMsg) ∧
    ensure_db none = .error (500, dbUnavailableMsg) :=
  ⟨rfl, rfl, rfl, rfl, rfl, rfl, rfl, rfl, rfl, rfl, rfl, rfl, rfl, rfl,
   rfl, rfl, rfl⟩

/-- C4: the role check of `require_admin` raises `HTTPException(403)`
inside the `try` block, where the bare `except Exception` catches it and
replaces it with 401 "Invalid token" — so a validly signed, unexpired
token whose role is "user" is answered with Unauthorized, not the
Forbidden the claim (and the 403 raise itself) intends. The expired,
malformed and admin paths behave as claimed. -/
theorem role_check_replaced_by_401 :
    jwtDecode (.token ⟨[("role", .str "user"), ("exp", .time 100)], JWT_SECRET⟩)
        JWT_SECRET 0 = .ok [("role", .str "user"), ("exp", .time 100)] ∧
    require_admin_try (.ok [("role", .str "user"), ("exp", .time 100)])
      = .error (.httpExc 403 "Not authorized") ∧
    require_admin (.ok [("role", .str "user"), ("exp", .time 100)])
      = .httpError 401 "Invalid token" ∧
    require_admin .expiredSignature = .httpError 401 "Token expired" ∧
    require_admin .decodeError = .httpError 401 "Invalid token" ∧
    require_admin (.ok [("role", .str "admin"), ("exp", .time 100)])
      = .ok [("role", .str "admin"), ("exp", .time 100)] :=
  ⟨rfl, rfl, rfl, rfl, rfl, rfl⟩

/-- C5: login against the configured admin password: mismatch gives 401
"Invalid credentials"; match returns the token-type string "bearer" and a
token signed with the server secret whose claims are exactly the role
"admin" and an expiry of issuance time plus `TOKEN_EXPIRE_MINUTES`,
which is eight hours. -/
theorem login_spec (adminPassword password : String) (now : Nat) :
    (password ≠ adminPassword →
      login adminPassword password now = .httpError 401 "Invalid credentials") ∧
    (password = adminPassword →
      login adminPassword password now =
        .ok ⟨⟨[("role", .str "admin"), ("exp", .time (now + TOKEN_EXPIRE_MINUTES))],
             JWT_SECRET⟩, "bearer"⟩) ∧
    TOKEN_EXPIRE_MINUTES = 8 * 60 := by
  refine ⟨fun h => ?_, fun h => ?_, rfl⟩
  · simp [login, h]
  · subst h
    simp [login, create_token, setKey]

/-- C5 witness: both login branches at the default admin password. -/
theorem login_spec_witness :
    login ADMIN_PASSWORD "admin123" 0 =
      .ok ⟨⟨[("role", .str "admin"), ("exp", .time (0 + TOKEN_EXPIRE_MINUTES))],
           JWT_SECRET⟩, "bearer"⟩ ∧
    login ADMIN_PASSWORD "wrong" 0 = .httpError 401 "Invalid credentials" :=
  ⟨(login_spec ADMIN_PASSWORD "admin123" 0).2.1 (by decide),
   (login_spec ADMIN_PASSWORD "wrong" 0).1 (by decide)⟩

/-- C6: `GET /home` returns, for every store state, the three blocks in
one response: at most 6 projects sorted by `created_at` descending, at
most 3 posts sorted the same way, and all tech items (a permutation of
the collection) sorted by `name` ascending. -/
theorem home_spec (s : Store) :
    home_data (some s) =
      .ok ⟨(home_projects s).map serialize_doc, (home_posts s).map serialize_doc,
           (home_tech s).map serialize_doc⟩ ∧
    (home_projects s).length ≤ 6 ∧
    (home_projects s).Pairwise (fun a b => createdRank b ≤ createdRank a) ∧
    (home_posts s).length ≤ 3 ∧
    (home_posts s).Pairwise (fun a b => createdRank b ≤ createdRank a) ∧
    (home_tech s).Perm s.techitem ∧
    (home_tech s).Pairwise (fun a b => nameKey a ≤ nameKey b) ∧
    ((home_tech s).map serialize_doc).length = s.techitem.length := by
  have htrans : ∀ a b c : Doc,
      createdDesc a b = true → createdDesc b c = true → createdDesc a c = true := by
    intro a b c hab hbc
    simp only [createdDesc, decide_eq_true_eq] at *
    exact le_trans hbc hab
  have htot : ∀ a b : Doc, (createdDesc a b || createdDesc b a) = true := by
    intro a b
    simp only [createdDesc, Bool.or_eq_true, decide_eq_true_eq]
    exact Nat.le_total _ _
  have hntrans : ∀ a b c : Doc,
      nameAsc a b = true → nameAsc b c = true → nameAsc a c = true := by
    intro a b c hab hbc
    simp only [nameAsc, decide_eq_true_eq] at *
    exact le_trans hab hbc
  have hntot : ∀ a b : Doc, (nameAsc a b || nameAsc b a) = true := by
    intro a b
    simp only [nameAsc, Bool.or_eq_true, decide_eq_true_eq]
    exact le_total _ _
  refine ⟨rfl, ?_, ?_, ?_, ?_, ?_, ?_, ?_⟩
  · simp [home_projects, List.length_take]
  · exact (List.Pairwise.sublist (List.take_sublist _ _)
      (List.sorted_mergeSort htrans htot _)).imp (fun h => of_decide_eq_true h)
  · simp [home_posts, List.length_take]
  · exact (List.Pairwise.sublist (List.take_sublist _ _)
      (List.sorted_mergeSort htrans htot _)).imp (fun h => of_decide_eq_true h)
  · exact List.mergeSort_perm _ _
  · exact (List.sorted_mergeSort hntrans hntot _).imp (fun h => of_decide_eq_true h)
  · show ((s.techitem.mergeSort nameAsc).map serialize_doc).length = s.techitem.length
    simp [List.length_mergeSort]

/-- C7: `GET /test` always returns a status object; when the configured
connection raises on access, the `database` field carries the error
message truncated to at most 80 characters (behind the "Error: " label)
and the handler still returns normally. -/
theorem test_database_spec (db : Option DbConn) :
    (∃ st, test_database db = .ok st) ∧
    (∀ c e, db = some c → c.connErr = some e →
      test_database db =
        .ok { backend := "✅ Running", database := "Error: " ++ strTrunc e 80,
              connection_status := "Connected", collections := none } ∧
      (strTrunc e 80).length ≤ 80) := by
  constructor
  · match db with
    | none => exact ⟨_, rfl⟩
    | some c =>
      match h : c.connErr with
      | some e =>
        exact ⟨{ backend := "✅ Running", database := "Error: " ++ strTrunc e 80,
                 connection_status := "Connected", collections := none },
               by simp [test_database, h]⟩
      | none =>
        exact ⟨{ backend := "✅ Running", database := "✅ Available",
                 connection_status := "Connected", collections := some c.collections },
               by simp [test_database, h]⟩
  · intro c e hdb herr
    subst hdb
    refine ⟨by simp [test_database, herr], ?_⟩
    show (e.data.take 80).length ≤ 80
    rw [List.length_take]
    exact min_le_left _ _

/-- C7 witness: a connection whose access raises with message "boom". -/
theorem test_database_spec_witness :
    test_database (some ⟨[], some "boom"⟩) =
      .ok { backend := "✅ Running", database := "Error: " ++ strTrunc "boom" 80,
            connection_status := "Connected", collections := none } ∧
    (strTrunc "boom" 80).length ≤ 80 :=
  (test_database_spec (some ⟨[], some "boom"⟩)).2 ⟨[], some "boom"⟩ "boom" rfl rfl

/-- C8: every create that passed validation stamps both `created_at` and
`updated_at` of the inserted document to the server clock reading `now`
— the body's own timestamp fields are overwritten, so the inserted
document does not depend on them — and the handler returns the string
rendering of the newly assigned identifier. -/
theorem create_stamps_server_time (s : Store) (p : Project) (b : BlogPost)
    (now : Nat) (newId : String) (c u : Option Nat) :
    create_project (some s) p now newId =
      .ok ({ s with project := s.project ++ [insertedProject p now newId] }, newId) ∧
    (insertedProject p now newId).lookup "created_at" = some (Value.time now) ∧
    (insertedProject p now newId).lookup "updated_at" = some (Value.time now) ∧
    insertedProject p now newId =
      insertedProject { p with created_at := c, updated_at := u } now newId ∧
    create_post (some s) b now newId =
      .ok ({ s with blogpost := s.blogpost ++ [insertedPost b now newId] }, newId) ∧
    (insertedPost b now newId).lookup "created_at" = some (Value.time now) ∧
    (insertedPost b now newId).lookup "updated_at" = some (Value.time now) ∧
    insertedPost b now newId =
      insertedPost { b with created_at := c, updated_at := u } now newId :=
  ⟨rfl, rfl, rfl, rfl, rfl, rfl, rfl, rfl⟩

/-- C9: a present-but-zero `limit` query parameter is falsy in the
handler's `if limit:` guard, so both list endpoints return every document
of the collection (sorted, serialized) rather than an empty list. -/
theorem limit_zero_returns_all (s : Store) :
    limitTruthy (some 0) = false ∧
    list_projects (some s) (some 0) =
      .ok ((s.project.mergeSort createdDesc).map serialize_doc) ∧
    ((s.project.mergeSort createdDesc).map serialize_doc).length
      = s.project.length ∧
    list_blog (some s) (some 0) =
      .ok ((s.blogpost.mergeSort createdDesc).map serialize_doc) ∧
    ((s.blogpost.mergeSort createdDesc).map serialize_doc).length
      = s.blogpost.length := by
  refine ⟨rfl, rfl, ?_, rfl, ?_⟩
  · simp [List.length_mergeSort]
  · simp [List.length_mergeSort]

/-- C10: each of the three create handlers stamps `created_at` and
`updated_at` from the same clock reading, so the freshly inserted
document always satisfies `created_at = updated_at`. -/
theorem create_created_eq_updated (s : Store) (p : Project) (b : BlogPost)
    (t : TechItem) (now : Nat) (newId : String) :
    create_tech (some s) t now newId =
      .ok ({ s with techitem := s.techitem ++ [insertedTech t now newId] }, newId) ∧
    (insertedProject p now newId).lookup "created_at"
      = (insertedProject p now newId).lookup "updated_at" ∧
    (insertedPost b now newId).lookup "created_at"
      = (insertedPost b now newId).lookup "updated_at" ∧
    (insertedTech t now newId).lookup "created_at"
      = (insertedTech t now newId).lookup "updated_at" :=
  ⟨rfl, rfl, rfl, rfl⟩
